import Mathlib

/-
Verification of the medical graviton safety controller
(src/src/graviton_safety_controller.py) against its specification.

Python floats are modelled as exact rationals where the code only compares
and divides, and as real numbers where the code uses pi, sqrt and sin.
numpy arrays are modelled as functions from index types to their entries.
-/

namespace GravitonSafety

/-! ## Data model (dataclasses `GravitonFieldMetrics`, `GravitonSafetyConstraints`) -/

/-- `BiologicalSafetyLevel` enum, in source declaration order
(most conservative first). -/
inductive BiologicalSafetyLevel where
  | NEURAL_ULTRA_SAFE
  | VASCULAR_SAFE
  | CELLULAR_SAFE
  | TISSUE_STANDARD
  | ORGAN_LEVEL
  | SURGICAL_TOOLS
deriving DecidableEq

/-- Dataclass `GravitonSafetyConstraints` with its literal default values. -/
structure GravitonSafetyConstraints where
  max_field_strength_tesla : ℚ
  max_energy_density_joules_m3 : ℚ
  max_spacetime_curvature : ℚ
  emergency_shutdown_time_ms : ℚ := 50
  biological_protection_factor : ℚ := 1e12
  causality_preservation_threshold : ℚ := 0.995
  positive_energy_compliance : ℚ := 1

/-- Dataclass `GravitonFieldMetrics` with its literal default values
(the 4x4 `stress_energy_tensor` defaults to zeros). -/
structure GravitonFieldMetrics where
  field_strength_tesla : ℚ := 0
  energy_density_joules_m3 : ℚ := 0
  stress_energy_tensor : Fin 4 → Fin 4 → ℚ := fun _ _ => 0
  spacetime_curvature : ℚ := 0
  causality_preservation : ℚ := 1
  positive_energy_compliance : ℚ := 1
  biological_safety_factor : ℚ := 0
  lqg_enhancement_factor : ℚ := 1
  emergency_response_ready : Bool := true

/-! ## `_initialize_safety_constraints`: the per-level parameter table -/

/-- The `max_field_tesla` column of the `safety_params` table. -/
def safety_params_max_field_tesla : BiologicalSafetyLevel → ℚ
  | .NEURAL_ULTRA_SAFE => 1e-18
  | .VASCULAR_SAFE => 1e-16
  | .CELLULAR_SAFE => 1e-14
  | .TISSUE_STANDARD => 1e-12
  | .ORGAN_LEVEL => 1e-10
  | .SURGICAL_TOOLS => 1e-8

/-- The `max_energy_density` column of the `safety_params` table. -/
def safety_params_max_energy_density : BiologicalSafetyLevel → ℚ
  | .NEURAL_ULTRA_SAFE => 1e-30
  | .VASCULAR_SAFE => 1e-28
  | .CELLULAR_SAFE => 1e-26
  | .TISSUE_STANDARD => 1e-24
  | .ORGAN_LEVEL => 1e-22
  | .SURGICAL_TOOLS => 1e-20

/-- The `max_curvature` column of the `safety_params` table. -/
def safety_params_max_curvature : BiologicalSafetyLevel → ℚ
  | .NEURAL_ULTRA_SAFE => 1e-50
  | .VASCULAR_SAFE => 1e-48
  | .CELLULAR_SAFE => 1e-46
  | .TISSUE_STANDARD => 1e-44
  | .ORGAN_LEVEL => 1e-42
  | .SURGICAL_TOOLS => 1e-40

/-- `_initialize_safety_constraints`: builds a `GravitonSafetyConstraints`
from the table row for the level; every other field keeps its default. -/
def init_safety_constraints (safety_level : BiologicalSafetyLevel) :
    GravitonSafetyConstraints :=
  { max_field_strength_tesla := safety_params_max_field_tesla safety_level
    max_energy_density_joules_m3 := safety_params_max_energy_density safety_level
    max_spacetime_curvature := safety_params_max_curvature safety_level }

/-! ## `validate_medical_safety` -/

/-- Tags for the violation message strings appended by `validate_medical_safety`
(the formatted numbers in the strings are abstracted away). -/
inductive SafetyViolation where
  | fieldStrengthExceedsLimit
  | energyDensityExceedsLimit
  | positiveEnergyComplianceBelowRequirement
  | causalityPreservationBelowThreshold
deriving DecidableEq

/-- The `validation_results` dictionary built by `validate_medical_safety`,
including the `safety_margin_factors` sub-dictionary. -/
structure ValidationResult where
  safe_for_medical_use : Bool
  safety_violations : List SafetyViolation
  emergency_action_required : Bool
  biological_protection_validated : Bool
  field_strength_margin : ℚ
  energy_density_margin : ℚ
  biological_protection_factor : ℚ
  overall_safety_margin : ℚ

/-- `validate_medical_safety`, translated check by check in source order. -/
def validate_medical_safety (constraints : GravitonSafetyConstraints)
    (field_metrics : GravitonFieldMetrics) : ValidationResult :=
  let r0 : ValidationResult :=
    { safe_for_medical_use := true
      safety_violations := []
      emergency_action_required := false
      biological_protection_validated := true
      field_strength_margin := 0
      energy_density_margin := 0
      biological_protection_factor := 0
      overall_safety_margin := 0 }
  let field_strength_ratio :=
    field_metrics.field_strength_tesla / constraints.max_field_strength_tesla
  let r1 :=
    if 1 < field_strength_ratio then
      { r0 with
        safe_for_medical_use := false
        safety_violations :=
          r0.safety_violations ++ [SafetyViolation.fieldStrengthExceedsLimit]
        emergency_action_required :=
          if 10 < field_strength_ratio then true else r0.emergency_action_required }
    else r0
  let energy_density_ratio :=
    field_metrics.energy_density_joules_m3 / constraints.max_energy_density_joules_m3
  let r2 :=
    if 1 < energy_density_ratio then
      { r1 with
        safe_for_medical_use := false
        safety_violations :=
          r1.safety_violations ++ [SafetyViolation.energyDensityExceedsLimit] }
    else r1
  let r3 :=
    if field_metrics.positive_energy_compliance < constraints.positive_energy_compliance then
      { r2 with
        safe_for_medical_use := false
        biological_protection_validated := false
        safety_violations :=
          r2.safety_violations ++ [SafetyViolation.positiveEnergyComplianceBelowRequirement]
        emergency_action_required := true }
    else r2
  let r4 :=
    if field_metrics.causality_preservation < constraints.causality_preservation_threshold then
      { r3 with
        safe_for_medical_use := false
        safety_violations :=
          r3.safety_violations ++ [SafetyViolation.causalityPreservationBelowThreshold]
        emergency_action_required := true }
    else r3
  { r4 with
    field_strength_margin := 1 / max field_strength_ratio 1e-10
    energy_density_margin := 1 / max energy_density_ratio 1e-10
    biological_protection_factor := field_metrics.biological_safety_factor
    overall_safety_margin :=
      min (min (1 / max field_strength_ratio 1e-10) (1 / max energy_density_ratio 1e-10))
        field_metrics.biological_safety_factor }

/-! ## Controller state and `emergency_graviton_shutdown` -/

/-- The 64x64x64 spatial grid of `_initialize_graviton_field_system`. -/
abbrev Grid := Fin 64 × Fin 64 × Fin 64

/-- The mutable state of `MedicalGravitonSafetyController` touched by the
verified operations: field buffers, metrics, constraints and control flags. -/
structure ControllerState where
  safety_level : BiologicalSafetyLevel
  safety_constraints : GravitonSafetyConstraints
  graviton_field_h : Fin 4 → Fin 4 → Grid → ℝ
  stress_energy_tensor : Fin 4 → Fin 4 → Grid → ℝ
  riemann_curvature : Fin 4 → Fin 4 → Fin 4 → Fin 4 → Grid → ℝ
  polymer_holonomy : Fin 2 → Fin 2 → Grid → ℂ
  polymer_flux : Fin 3 → Grid → ℝ
  field_metrics : GravitonFieldMetrics
  field_active : Bool
  emergency_stop : Bool

/-- The `shutdown_metrics` dictionary returned by `emergency_graviton_shutdown`. -/
structure ShutdownReport where
  shutdown_time_ms : ℚ
  within_medical_response_limit : Bool
  emergency_response_requirement_ms : ℚ
  all_fields_deactivated : Bool
  positive_energy_maintained : Bool
  causality_preserved : Bool
  biological_safety_secured : Bool
  system_safe_state : Bool

/-- `GravitonFieldMetrics()`: the safe default metrics object that
`emergency_graviton_shutdown` resets to. -/
def safe_default_metrics : GravitonFieldMetrics := {}

/-- `emergency_graviton_shutdown`. The wall-clock duration measured by the
code is the parameter `shutdown_time_ms`; everything else is the literal
state update and report of the source. -/
def emergency_graviton_shutdown (shutdown_time_ms : ℚ) (s : ControllerState) :
    ControllerState × ShutdownReport :=
  let s1 : ControllerState :=
    { s with
      field_active := false
      emergency_stop := true
      graviton_field_h := fun _ _ _ => 0
      stress_energy_tensor := fun _ _ _ => 0
      riemann_curvature := fun _ _ _ _ _ => 0
      polymer_holonomy := fun _ _ _ => 0
      polymer_flux := fun _ _ => 0
      field_metrics := { safe_default_metrics with emergency_response_ready := true } }
  let within_medical_limit :=
    decide (shutdown_time_ms < s.safety_constraints.emergency_shutdown_time_ms)
  (s1,
    { shutdown_time_ms := shutdown_time_ms
      within_medical_response_limit := within_medical_limit
      emergency_response_requirement_ms := s.safety_constraints.emergency_shutdown_time_ms
      all_fields_deactivated := true
      positive_energy_maintained := true
      causality_preserved := true
      biological_safety_secured := true
      system_safe_state := true })

/-! ## `get_safety_status_report` -/

/-- The `system_status` string of the report. -/
inductive SystemStatus where
  | EMERGENCY_STOPPED
  | ACTIVE
  | STANDBY
deriving DecidableEq

/-- The `medical_certification` block of the status report. -/
structure MedicalCertification where
  positive_energy_guaranteed : Bool
  no_exotic_matter : Bool
  medical_grade_validated : Bool
  emergency_protocols_ready : Bool
  biological_protection_active : Bool

/-- The status report: controller state, metrics snapshot, validation result,
constraint values and certification block (timestamp and LQG parameter echo
carry no verified content and are omitted). -/
structure SafetyStatusReport where
  system_status : SystemStatus
  safety_level : BiologicalSafetyLevel
  field_strength_tesla : ℚ
  energy_density_joules_m3 : ℚ
  positive_energy_compliance : ℚ
  causality_preservation : ℚ
  biological_safety_factor : ℚ
  lqg_enhancement_factor : ℚ
  safety_validation : ValidationResult
  max_field_strength_tesla : ℚ
  max_energy_density_joules_m3 : ℚ
  emergency_shutdown_time_ms : ℚ
  biological_protection_factor : ℚ
  medical_certification : MedicalCertification

/-- `get_safety_status_report`, as a state-passing function: the method body
contains no assignment to the controller, so the output state is the input
state. -/
def get_safety_status_report (s : ControllerState) :
    SafetyStatusReport × ControllerState :=
  let safety_validation := validate_medical_safety s.safety_constraints s.field_metrics
  ({ system_status :=
      if s.emergency_stop then SystemStatus.EMERGENCY_STOPPED
      else if s.field_active then SystemStatus.ACTIVE
      else SystemStatus.STANDBY
     safety_level := s.safety_level
     field_strength_tesla := s.field_metrics.field_strength_tesla
     energy_density_joules_m3 := s.field_metrics.energy_density_joules_m3
     positive_energy_compliance := s.field_metrics.positive_energy_compliance
     causality_preservation := s.field_metrics.causality_preservation
     biological_safety_factor := s.field_metrics.biological_safety_factor
     lqg_enhancement_factor := s.field_metrics.lqg_enhancement_factor
     safety_validation := safety_validation
     max_field_strength_tesla := s.safety_constraints.max_field_strength_tesla
     max_energy_density_joules_m3 := s.safety_constraints.max_energy_density_joules_m3
     emergency_shutdown_time_ms := s.safety_constraints.emergency_shutdown_time_ms
     biological_protection_factor := s.safety_constraints.biological_protection_factor
     medical_certification :=
      { positive_energy_guaranteed :=
          decide (0.999 ≤ s.field_metrics.positive_energy_compliance)
        no_exotic_matter := true
        medical_grade_validated := safety_validation.safe_for_medical_use
        emergency_protocols_ready := s.field_metrics.emergency_response_ready
        biological_protection_active := safety_validation.biological_protection_validated } },
   s)

/-! ## `_compute_stress_energy_tensor` and `enforce_positive_energy_constraint`

A field configuration `field_config` of shape `(4, 4, *grid)` is a function
`Fin 4 → Fin 4 → ι → ℝ` over an arbitrary nonempty finite grid index type
`ι` (the controller uses `Grid`; `enforce` accepts any shape). -/

/-- `scipy.constants.G` (Newtonian constant of gravitation). -/
def const_G : ℝ := 6.6743e-11

/-- `np.linalg.norm(field_config, axis=(0,1))`: pointwise Frobenius norm
of the 4x4 tensor slice at each grid point. -/
noncomputable def field_strength {ι : Type} (field_config : Fin 4 → Fin 4 → ι → ℝ)
    (p : ι) : ℝ :=
  Real.sqrt (∑ μ : Fin 4, ∑ ν : Fin 4, field_config μ ν p ^ 2)

/-- `energy_density = 0.5 * field_strength**2 / (8 * np.pi * const.G)`
inside `_compute_stress_energy_tensor`. -/
noncomputable def energy_density {ι : Type} (field_config : Fin 4 → Fin 4 → ι → ℝ)
    (p : ι) : ℝ :=
  0.5 * field_strength field_config p ^ 2 / (8 * Real.pi * const_G)

/-- `_compute_stress_energy_tensor`: zeros, with `T_00` the energy density and
the spatial diagonal entries `T_11, T_22, T_33` set to `0.1 *` energy density. -/
noncomputable def compute_stress_energy_tensor {ι : Type}
    (field_config : Fin 4 → Fin 4 → ι → ℝ) : Fin 4 → Fin 4 → ι → ℝ :=
  fun μ ν p =>
    if μ = 0 ∧ ν = 0 then energy_density field_config p
    else if μ = ν ∧ μ ≠ 0 then 0.1 * energy_density field_config p
    else 0

open Classical in
/-- `_project_to_positive_energy`: scales every tensor component by `0.1`
at the grid points whose energy density is negative. -/
noncomputable def project_to_positive_energy {ι : Type}
    (field_config : Fin 4 → Fin 4 → ι → ℝ) : Fin 4 → Fin 4 → ι → ℝ :=
  fun μ ν p =>
    if compute_stress_energy_tensor field_config 0 0 p < 0 then
      0.1 * field_config μ ν p
    else field_config μ ν p

/-- The `constraint_metrics` dictionary of `enforce_positive_energy_constraint`;
the two `safe_*` keys exist only when the projection branch ran. -/
structure ConstraintMetrics where
  min_energy_density : ℝ
  positive_energy_satisfied : Bool
  constraint_violation_points : ℕ
  total_field_points : ℕ
  compliance_ratio : ℝ
  projection_applied : Bool
  safe_min_energy_density : Option ℝ
  safe_compliance_ratio : Option ℝ

open Classical in
/-- `enforce_positive_energy_constraint`: computes the stress-energy tensor,
reads off the `T_00` energy-density field, reports the metrics, and applies
the projection only when the minimum energy density is negative. -/
noncomputable def enforce_positive_energy_constraint {ι : Type} [Fintype ι]
    [Nonempty ι] (field_configuration : Fin 4 → Fin 4 → ι → ℝ) :
    (Fin 4 → Fin 4 → ι → ℝ) × ConstraintMetrics :=
  let stress_energy := compute_stress_energy_tensor field_configuration
  let ed := stress_energy 0 0
  let min_energy_density := Finset.univ.inf' Finset.univ_nonempty ed
  let base : ConstraintMetrics :=
    { min_energy_density := min_energy_density
      positive_energy_satisfied := decide (0 ≤ min_energy_density)
      constraint_violation_points := (Finset.univ.filter fun p => ed p < 0).card
      total_field_points := Fintype.card ι
      compliance_ratio :=
        ((Finset.univ.filter fun p => 0 ≤ ed p).card : ℝ) / (Fintype.card ι : ℝ)
      projection_applied := false
      safe_min_energy_density := none
      safe_compliance_ratio := none }
  if min_energy_density < 0 then
    let safe_configuration := project_to_positive_energy field_configuration
    let safe_ed := compute_stress_energy_tensor safe_configuration 0 0
    (safe_configuration,
      { base with
        projection_applied := true
        safe_min_energy_density := some (Finset.univ.inf' Finset.univ_nonempty safe_ed)
        safe_compliance_ratio :=
          some (((Finset.univ.filter fun p => 0 ≤ safe_ed p).card : ℝ) /
            (Fintype.card ι : ℝ)) })
  else
    (field_configuration, base)

/-! ## `apply_lqg_polymer_enhancement` -/

/-- `self.polymer_scale_mu = 0.15`. -/
def polymer_scale_mu : ℝ := 0.15

/-- `self.gamma_immirzi = 0.2375`. -/
def gamma_immirzi : ℝ := 0.2375

/-- `self.lqg_energy_reduction = 242e6`. -/
def lqg_energy_reduction : ℝ := 242e6

/-- numpy's normalized `np.sinc`: `sin(pi*x)/(pi*x)`, with value 1 at 0. -/
noncomputable def np_sinc (x : ℝ) : ℝ :=
  if x = 0 then 1 else Real.sin (Real.pi * x) / (Real.pi * x)

/-- `sinc_factor = np.sinc(np.pi * self.polymer_scale_mu)`. -/
noncomputable def sinc_factor : ℝ := np_sinc (Real.pi * polymer_scale_mu)

/-- `immirzi_enhancement = self.gamma_immirzi / (1 + self.gamma_immirzi**2)`. -/
noncomputable def immirzi_enhancement : ℝ :=
  gamma_immirzi / (1 + gamma_immirzi ^ 2)

/-- `np.linalg.norm` of a whole array: square root of the sum of squared
entries of the flattened array. -/
noncomputable def linalg_norm {ι : Type} [Fintype ι] (f : ι → ℝ) : ℝ :=
  Real.sqrt (∑ i, f i ^ 2)

/-- The `enhancement_metrics` dictionary of `apply_lqg_polymer_enhancement`. -/
structure EnhancementMetrics where
  sinc_enhancement_factor : ℝ
  immirzi_enhancement : ℝ
  energy_reduction_factor : ℝ
  polymer_scale_mu : ℝ
  gamma_immirzi : ℝ
  field_strength_reduction : ℝ

/-- `apply_lqg_polymer_enhancement`: elementwise scaling of the classical
field by `sinc_factor * immirzi_enhancement`, plus the metrics dictionary. -/
noncomputable def apply_lqg_polymer_enhancement {ι : Type} [Fintype ι]
    (classical_field : ι → ℝ) : (ι → ℝ) × EnhancementMetrics :=
  let enhanced_field := fun i => sinc_factor * immirzi_enhancement * classical_field i
  let energy_reduction_achieved := lqg_energy_reduction * sinc_factor
  (enhanced_field,
    { sinc_enhancement_factor := sinc_factor
      immirzi_enhancement := immirzi_enhancement
      energy_reduction_factor := energy_reduction_achieved
      polymer_scale_mu := polymer_scale_mu
      gamma_immirzi := gamma_immirzi
      field_strength_reduction := linalg_norm enhanced_field / linalg_norm classical_field })

/-! ## Concrete inputs used by witnesses -/

/-- The all-zero field configuration on a one-point grid. -/
def zero_config : Fin 4 → Fin 4 → Fin 1 → ℝ := fun _ _ _ => 0

/-- A metrics snapshot whose energy density exceeds the TISSUE_STANDARD
limit (ratio 2) while every other metric is nominal. -/
def witness_metrics : GravitonFieldMetrics := { energy_density_joules_m3 := 2e-24 }

/-! ## Theorems -/

/-- C9: across the six biological safety levels ordered from most to least
conservative, `max_field_strength_tesla` is strictly increasing, and the
50 ms emergency response budget is the same constant for every profile. -/
theorem safety_constraints_strictly_increasing_and_constant_budget :
    ((init_safety_constraints .NEURAL_ULTRA_SAFE).max_field_strength_tesla <
        (init_safety_constraints .VASCULAR_SAFE).max_field_strength_tesla ∧
      (init_safety_constraints .VASCULAR_SAFE).max_field_strength_tesla <
        (init_safety_constraints .CELLULAR_SAFE).max_field_strength_tesla ∧
      (init_safety_constraints .CELLULAR_SAFE).max_field_strength_tesla <
        (init_safety_constraints .TISSUE_STANDARD).max_field_strength_tesla ∧
      (init_safety_constraints .TISSUE_STANDARD).max_field_strength_tesla <
        (init_safety_constraints .ORGAN_LEVEL).max_field_strength_tesla ∧
      (init_safety_constraints .ORGAN_LEVEL).max_field_strength_tesla <
        (init_safety_constraints .SURGICAL_TOOLS).max_field_strength_tesla) ∧
    ∀ l : BiologicalSafetyLevel,
      (init_safety_constraints l).emergency_shutdown_time_ms = 50 := by
  refine ⟨by norm_num [init_safety_constraints, safety_params_max_field_tesla], ?_⟩
  intro l
  cases l <;> rfl

/-- Helper: `emergency_action_required` holds exactly when the field-strength
ratio exceeds 10, compliance is below the required compliance, or causality
is below the threshold. -/
theorem validate_emergency_iff (c : GravitonSafetyConstraints)
    (m : GravitonFieldMetrics) :
    (validate_medical_safety c m).emergency_action_required = true ↔
      (10 < m.field_strength_tesla / c.max_field_strength_tesla ∨
        m.positive_energy_compliance < c.positive_energy_compliance ∨
        m.causality_preservation < c.causality_preservation_threshold) := by
  unfold validate_medical_safety
  by_cases h1 : 1 < m.field_strength_tesla / c.max_field_strength_tesla <;>
  by_cases h2 : 10 < m.field_strength_tesla / c.max_field_strength_tesla <;>
  by_cases h4 : m.positive_energy_compliance < c.positive_energy_compliance <;>
  by_cases h5 : m.causality_preservation < c.causality_preservation_threshold <;>
  simp [apply_ite, h1, h2, h4, h5] <;>
  exact h1 (lt_trans (by norm_num) h2)

/-- Helper: an energy-density ratio above 1 always appends the energy-density
violation entry. -/
theorem validate_energy_density_violation_mem (c : GravitonSafetyConstraints)
    (m : GravitonFieldMetrics)
    (h : 1 < m.energy_density_joules_m3 / c.max_energy_density_joules_m3) :
    SafetyViolation.energyDensityExceedsLimit ∈
      (validate_medical_safety c m).safety_violations := by
  unfold validate_medical_safety
  by_cases h1 : 1 < m.field_strength_tesla / c.max_field_strength_tesla <;>
  by_cases h2 : 10 < m.field_strength_tesla / c.max_field_strength_tesla <;>
  by_cases h4 : m.positive_energy_compliance < c.positive_energy_compliance <;>
  by_cases h5 : m.causality_preservation < c.causality_preservation_threshold <;>
  simp [apply_ite, h, h1, h2, h4, h5]

/-- C1: `validate_medical_safety` sets `emergency_action_required` exactly when
the field-strength ratio exceeds 10, compliance is below 1.0, or causality is
below 0.995; an energy-density ratio above 1 yields a violation entry but by
itself never sets `emergency_action_required`. -/
theorem validate_medical_safety_emergency_exactly
    (level : BiologicalSafetyLevel) (m : GravitonFieldMetrics) :
    ((validate_medical_safety (init_safety_constraints level) m).emergency_action_required = true ↔
      (10 < m.field_strength_tesla / (init_safety_constraints level).max_field_strength_tesla ∨
        m.positive_energy_compliance < 1 ∨
        m.causality_preservation < 0.995)) ∧
    (1 < m.energy_density_joules_m3 / (init_safety_constraints level).max_energy_density_joules_m3 →
      SafetyViolation.energyDensityExceedsLimit ∈
        (validate_medical_safety (init_safety_constraints level) m).safety_violations) :=
  ⟨validate_emergency_iff (init_safety_constraints level) m,
    fun h => validate_energy_density_violation_mem (init_safety_constraints level) m h⟩

/-- C1 witness: concrete evaluation at the TISSUE_STANDARD profile and a
snapshot whose only anomaly is an energy-density ratio of 2. -/
theorem validate_medical_safety_emergency_exactly_witness :
    ((validate_medical_safety (init_safety_constraints .TISSUE_STANDARD)
        witness_metrics).emergency_action_required = true ↔
      (10 < witness_metrics.field_strength_tesla /
          (init_safety_constraints .TISSUE_STANDARD).max_field_strength_tesla ∨
        witness_metrics.positive_energy_compliance < 1 ∨
        witness_metrics.causality_preservation < 0.995)) ∧
    (1 < witness_metrics.energy_density_joules_m3 /
        (init_safety_constraints .TISSUE_STANDARD).max_energy_density_joules_m3 →
      SafetyViolation.energyDensityExceedsLimit ∈
        (validate_medical_safety (init_safety_constraints .TISSUE_STANDARD)
          witness_metrics).safety_violations) :=
  validate_medical_safety_emergency_exactly .TISSUE_STANDARD witness_metrics

/-- Helper: the energy density derived from any real field configuration is
nonnegative (it is half a squared Frobenius norm over a positive constant). -/
theorem energy_density_nonneg {ι : Type} (c : Fin 4 → Fin 4 → ι → ℝ) (p : ι) :
    0 ≤ energy_density c p := by
  unfold energy_density field_strength const_G
  positivity

/-- Helper: the `T_00` component of the computed stress-energy tensor is the
energy density. -/
theorem stress_energy_T00 {ι : Type} (c : Fin 4 → Fin 4 → ι → ℝ) (p : ι) :
    compute_stress_energy_tensor c 0 0 p = energy_density c p := by
  unfold compute_stress_energy_tensor
  simp

/-- Helper: `enforce_positive_energy_constraint` always takes its
no-violation branch. -/
theorem enforce_eq_no_projection {ι : Type} [Fintype ι] [Nonempty ι]
    (c : Fin 4 → Fin 4 → ι → ℝ) :
    enforce_positive_energy_constraint c =
      (c,
        { min_energy_density :=
            Finset.univ.inf' Finset.univ_nonempty (compute_stress_energy_tensor c 0 0)
          positive_energy_satisfied :=
            decide (0 ≤ Finset.univ.inf' Finset.univ_nonempty (compute_stress_energy_tensor c 0 0))
          constraint_violation_points :=
            (Finset.univ.filter fun p => compute_stress_energy_tensor c 0 0 p < 0).card
          total_field_points := Fintype.card ι
          compliance_ratio :=
            ((Finset.univ.filter fun p => 0 ≤ compute_stress_energy_tensor c 0 0 p).card : ℝ) /
              (Fintype.card ι : ℝ)
          projection_applied := false
          safe_min_energy_density := none
          safe_compliance_ratio := none }) := by
  have hed : ∀ p : ι, 0 ≤ compute_stress_energy_tensor c 0 0 p := by
    intro p
    rw [stress_energy_T00]
    exact energy_density_nonneg c p
  have hmin : ¬ Finset.univ.inf' Finset.univ_nonempty
      (compute_stress_energy_tensor c 0 0) < 0 := by
    rw [not_lt]
    exact Finset.le_inf' _ _ fun p _ => hed p
  unfold enforce_positive_energy_constraint
  simp only [hmin, if_false, reduceIte]

/-- C3: for every field configuration, the configuration returned by
`enforce_positive_energy_constraint` has nonnegative energy density (the
`T_00` component of `_compute_stress_energy_tensor`) at every grid point. -/
theorem enforce_positive_energy_constraint_output_nonneg {ι : Type} [Fintype ι]
    [Nonempty ι] (c : Fin 4 → Fin 4 → ι → ℝ) (p : ι) :
    0 ≤ compute_stress_energy_tensor
      (enforce_positive_energy_constraint c).1 0 0 p := by
  rw [stress_energy_T00]
  exact energy_density_nonneg _ p

/-- C3 witness: concrete evaluation at the zero configuration on a one-point
grid. -/
theorem enforce_positive_energy_constraint_output_nonneg_witness :
    0 ≤ compute_stress_energy_tensor
      (enforce_positive_energy_constraint zero_config).1 0 0 0 :=
  enforce_positive_energy_constraint_output_nonneg zero_config 0

/-- C4: the energy density computed inside
`enforce_positive_energy_constraint` is nonnegative at every grid point, so
the violation count is 0, the compliance ratio is 1, and `enforce` always
returns its input unchanged with `projection_applied = false`. -/
theorem enforce_positive_energy_constraint_trivial {ι : Type} [Fintype ι]
    [Nonempty ι] (c : Fin 4 → Fin 4 → ι → ℝ) :
    (∀ p : ι, 0 ≤ energy_density c p) ∧
    (enforce_positive_energy_constraint c).1 = c ∧
    (enforce_positive_energy_constraint c).2.projection_applied = false ∧
    (enforce_positive_energy_constraint c).2.constraint_violation_points = 0 ∧
    (enforce_positive_energy_constraint c).2.compliance_ratio = 1 := by
  have hed : ∀ p : ι, 0 ≤ compute_stress_energy_tensor c 0 0 p := by
    intro p
    rw [stress_energy_T00]
    exact energy_density_nonneg c p
  rw [enforce_eq_no_projection]
  refine ⟨fun p => energy_density_nonneg c p, rfl, rfl, ?_, ?_⟩
  · simp only [Finset.card_eq_zero, Finset.filter_eq_empty_iff]
    exact fun p _ => not_lt.mpr (hed p)
  · have huniv : (Finset.univ.filter fun p : ι =>
        0 ≤ compute_stress_energy_tensor c 0 0 p) = Finset.univ :=
      Finset.filter_true_of_mem fun p _ => hed p
    simp only [huniv, Finset.card_univ]
    exact div_self (Nat.cast_ne_zero.mpr Fintype.card_ne_zero)

/-- C4 witness: concrete evaluation at the zero configuration on a one-point
grid. -/
theorem enforce_positive_energy_constraint_trivial_witness :
    (∀ p : Fin 1, 0 ≤ energy_density zero_config p) ∧
    (enforce_positive_energy_constraint zero_config).1 = zero_config ∧
    (enforce_positive_energy_constraint zero_config).2.projection_applied = false ∧
    (enforce_positive_energy_constraint zero_config).2.constraint_violation_points = 0 ∧
    (enforce_positive_energy_constraint zero_config).2.compliance_ratio = 1 :=
  enforce_positive_energy_constraint_trivial zero_config

/-- C7: a configuration with no negative-energy grid point is returned
unchanged by `enforce_positive_energy_constraint`, with
`projection_applied = false`. -/
theorem enforce_positive_energy_constraint_unchanged_of_no_violation
    {ι : Type} [Fintype ι] [Nonempty ι] (c : Fin 4 → Fin 4 → ι → ℝ)
    (h : ∀ p : ι, ¬ energy_density c p < 0) :
    (enforce_positive_energy_constraint c).1 = c ∧
    (enforce_positive_energy_constraint c).2.projection_applied = false := by
  rw [enforce_eq_no_projection]
  exact ⟨rfl, rfl⟩

/-- C7 witness: concrete evaluation at the zero configuration on a one-point
grid, whose energy density is nowhere negative. -/
theorem enforce_positive_energy_constraint_unchanged_of_no_violation_witness :
    (enforce_positive_energy_constraint zero_config).1 = zero_config ∧
    (enforce_positive_energy_constraint zero_config).2.projection_applied = false :=
  enforce_positive_energy_constraint_unchanged_of_no_violation zero_config
    fun p => not_lt.mpr (energy_density_nonneg zero_config p)

/-- Helper: the argument passed to `np.sinc` is nonzero. -/
theorem pi_mul_mu_ne_zero : Real.pi * polymer_scale_mu ≠ 0 := by
  unfold polymer_scale_mu
  positivity

/-- Helper: the sinc factor computed by the code is
`sin(pi * (pi * mu)) / (pi * (pi * mu))` (numpy's `sinc` is normalized). -/
theorem sinc_factor_eq :
    sinc_factor = Real.sin (Real.pi * (Real.pi * polymer_scale_mu)) /
      (Real.pi * (Real.pi * polymer_scale_mu)) := by
  unfold sinc_factor np_sinc
  rw [if_neg pi_mul_mu_ne_zero]

/-- Helper: the inner sine argument `pi^2 * 0.15` lies in `[1.48, 1.5]`. -/
theorem inner_arg_bounds :
    1.48 ≤ Real.pi * (Real.pi * polymer_scale_mu) ∧
      Real.pi * (Real.pi * polymer_scale_mu) ≤ 1.5 := by
  unfold polymer_scale_mu
  have h1 := Real.pi_gt_d6
  have h2 := Real.pi_lt_d2
  constructor <;> nlinarith

/-- Helper: the code's sinc factor is positive. -/
theorem sinc_factor_pos : 0 < sinc_factor := by
  rw [sinc_factor_eq]
  obtain ⟨hlb, hub⟩ := inner_arg_bounds
  have hT : 0 < Real.pi * (Real.pi * polymer_scale_mu) := by linarith
  refine div_pos (Real.sin_pos_of_pos_of_lt_pi hT ?_) hT
  have := Real.pi_gt_d6
  linarith

/-- Helper: the code's sinc factor is at most 0.68. -/
theorem sinc_factor_le : sinc_factor ≤ 0.68 := by
  rw [sinc_factor_eq]
  obtain ⟨hlb, hub⟩ := inner_arg_bounds
  have hT : 0 < Real.pi * (Real.pi * polymer_scale_mu) := by linarith
  calc Real.sin (Real.pi * (Real.pi * polymer_scale_mu)) /
        (Real.pi * (Real.pi * polymer_scale_mu)) ≤
      1 / (Real.pi * (Real.pi * polymer_scale_mu)) :=
        (div_le_div_iff_of_pos_right hT).mpr (Real.sin_le_one _)
    _ ≤ 1 / 1.48 := one_div_le_one_div_of_le (by norm_num) hlb
    _ ≤ 0.68 := by norm_num

/-- Helper: the Immirzi factor `0.2375 / (1 + 0.2375^2)` is positive. -/
theorem immirzi_enhancement_pos : 0 < immirzi_enhancement := by
  unfold immirzi_enhancement gamma_immirzi
  norm_num

/-- Helper: the Immirzi factor is at most 0.225. -/
theorem immirzi_enhancement_le : immirzi_enhancement ≤ 0.225 := by
  unfold immirzi_enhancement gamma_immirzi
  norm_num

/-- Helper: the combined multiplier is positive. -/
theorem multiplier_pos : 0 < sinc_factor * immirzi_enhancement :=
  mul_pos sinc_factor_pos immirzi_enhancement_pos

/-- Helper: the combined multiplier is at most 0.153. -/
theorem multiplier_le : sinc_factor * immirzi_enhancement ≤ 0.153 := by
  calc sinc_factor * immirzi_enhancement ≤ 0.68 * 0.225 :=
      mul_le_mul sinc_factor_le immirzi_enhancement_le
        immirzi_enhancement_pos.le (by norm_num)
    _ ≤ 0.153 := by norm_num

/-- Helper: `np.linalg.norm` scales by the absolute value of a common
scalar factor. -/
theorem linalg_norm_smul {ι : Type} [Fintype ι] (a : ℝ) (f : ι → ℝ) :
    linalg_norm (fun i => a * f i) = |a| * linalg_norm f := by
  unfold linalg_norm
  rw [show ∑ i, (a * f i) ^ 2 = a ^ 2 * ∑ i, f i ^ 2 by
      rw [Finset.mul_sum]
      exact Finset.sum_congr rfl fun i _ => by ring]
  rw [Real.sqrt_mul (sq_nonneg a), Real.sqrt_sq_eq_abs]

/-- Helper: norms of the unit one-point input and of its enhanced output. -/
theorem unit_input_norms :
    linalg_norm (fun _ : Fin 1 => (1 : ℝ)) = 1 ∧
      linalg_norm (apply_lqg_polymer_enhancement (fun _ : Fin 1 => (1 : ℝ))).1 =
        sinc_factor * immirzi_enhancement := by
  have hone : linalg_norm (fun _ : Fin 1 => (1 : ℝ)) = 1 := by
    unfold linalg_norm
    simp
  refine ⟨hone, ?_⟩
  have h2 : (apply_lqg_polymer_enhancement (fun _ : Fin 1 => (1 : ℝ))).1 =
      fun i : Fin 1 => sinc_factor * immirzi_enhancement * (fun _ : Fin 1 => (1 : ℝ)) i :=
    rfl
  rw [h2, linalg_norm_smul, hone, mul_one, abs_of_pos multiplier_pos]

/-- C8: for every classical field input, the enhanced field returned by
`apply_lqg_polymer_enhancement` has norm at most the input's norm, the
combined scalar multiplier having absolute value at most 1. -/
theorem apply_lqg_polymer_enhancement_norm_le {ι : Type} [Fintype ι]
    (classical_field : ι → ℝ) :
    linalg_norm (apply_lqg_polymer_enhancement classical_field).1 ≤
      linalg_norm classical_field ∧
    |sinc_factor * immirzi_enhancement| ≤ 1 := by
  have habs : |sinc_factor * immirzi_enhancement| ≤ 1 := by
    rw [abs_of_pos multiplier_pos]
    linarith [multiplier_le]
  refine ⟨?_, habs⟩
  have h1 : (apply_lqg_polymer_enhancement classical_field).1 =
      fun i => sinc_factor * immirzi_enhancement * classical_field i := rfl
  rw [h1, linalg_norm_smul]
  exact mul_le_of_le_one_left (Real.sqrt_nonneg _) habs

/-- C2: the code's `np.sinc(np.pi * 0.15)` equals `sin(pi^2 * 0.15) /
(pi^2 * 0.15)`, which is more than 1e-3 away from the documented
`sinc(pi * 0.15) ≈ 0.9628`, and the combined multiplier (and hence the
enhanced norm of a unit-norm input) is more than 1e-3 away from 0.2164. -/
theorem apply_lqg_polymer_enhancement_sinc_divergence :
    1e-3 < |sinc_factor - 0.9628| ∧
    1e-3 < |sinc_factor * immirzi_enhancement - 0.2164| ∧
    (apply_lqg_polymer_enhancement
      (fun _ : Fin 1 => (1 : ℝ))).2.sinc_enhancement_factor = sinc_factor ∧
    1e-3 < |linalg_norm (apply_lqg_polymer_enhancement
      (fun _ : Fin 1 => (1 : ℝ))).1 - 0.2164| := by
  have hs := sinc_factor_le
  have hsp := sinc_factor_pos
  have hm := multiplier_le
  have hmp := multiplier_pos
  refine ⟨?_, ?_, rfl, ?_⟩
  · rw [abs_of_neg (by linarith)]
    linarith
  · rw [abs_of_neg (by linarith)]
    linarith
  · rw [unit_input_norms.2, abs_of_neg (by linarith)]
    linarith

/-- C5 counterexample: on the unit one-point input, the measured
`field_strength_reduction` metric differs from
`‖classical‖^2 / ‖enhanced‖^2`. -/
theorem field_strength_reduction_not_inverse_square_ratio :
    (apply_lqg_polymer_enhancement
        (fun _ : Fin 1 => (1 : ℝ))).2.field_strength_reduction ≠
      linalg_norm (fun _ : Fin 1 => (1 : ℝ)) ^ 2 /
        linalg_norm (apply_lqg_polymer_enhancement
          (fun _ : Fin 1 => (1 : ℝ))).1 ^ 2 := by
  obtain ⟨h1, h2⟩ := unit_input_norms
  have hfsr : (apply_lqg_polymer_enhancement
      (fun _ : Fin 1 => (1 : ℝ))).2.field_strength_reduction =
      linalg_norm (apply_lqg_polymer_enhancement (fun _ : Fin 1 => (1 : ℝ))).1 /
        linalg_norm (fun _ : Fin 1 => (1 : ℝ)) := rfl
  rw [hfsr, h1, h2, div_one, one_pow]
  have hmp := multiplier_pos
  have hm := multiplier_le
  have hgt : 1 < 1 / (sinc_factor * immirzi_enhancement) ^ 2 := by
    rw [lt_div_iff₀ (by positivity)]
    nlinarith
  exact ne_of_lt (by linarith)

/-- C5 (amended): the measured reduction figure exposed in the metrics is
`‖enhanced‖ / ‖classical‖`, alongside the separate theoretical figure
`242e6 * sinc_factor`. -/
theorem field_strength_reduction_is_norm_ratio {ι : Type} [Fintype ι]
    (classical_field : ι → ℝ) :
    (apply_lqg_polymer_enhancement classical_field).2.field_strength_reduction =
      linalg_norm (apply_lqg_polymer_enhancement classical_field).1 /
        linalg_norm classical_field ∧
    (apply_lqg_polymer_enhancement classical_field).2.energy_reduction_factor =
      lqg_energy_reduction * sinc_factor :=
  ⟨rfl, rfl⟩

/-- C6: calling `emergency_graviton_shutdown` twice in succession yields two
reports with identical safe-state fields, and after each call the controller
is emergency-stopped with the field inactive, every field-related buffer is
all zeros, and the metrics equal the safe default with the readiness flag
asserted. -/
theorem emergency_graviton_shutdown_idempotent_safe_state
    (s : ControllerState) (t1 t2 : ℚ) :
    ((emergency_graviton_shutdown t1 s).2.all_fields_deactivated =
        (emergency_graviton_shutdown t2 (emergency_graviton_shutdown t1 s).1).2.all_fields_deactivated ∧
      (emergency_graviton_shutdown t1 s).2.positive_energy_maintained =
        (emergency_graviton_shutdown t2 (emergency_graviton_shutdown t1 s).1).2.positive_energy_maintained ∧
      (emergency_graviton_shutdown t1 s).2.causality_preserved =
        (emergency_graviton_shutdown t2 (emergency_graviton_shutdown t1 s).1).2.causality_preserved ∧
      (emergency_graviton_shutdown t1 s).2.biological_safety_secured =
        (emergency_graviton_shutdown t2 (emergency_graviton_shutdown t1 s).1).2.biological_safety_secured ∧
      (emergency_graviton_shutdown t1 s).2.system_safe_state =
        (emergency_graviton_shutdown t2 (emergency_graviton_shutdown t1 s).1).2.system_safe_state ∧
      (emergency_graviton_shutdown t1 s).2.emergency_response_requirement_ms =
        (emergency_graviton_shutdown t2 (emergency_graviton_shutdown t1 s).1).2.emergency_response_requirement_ms) ∧
    ((emergency_graviton_shutdown t1 s).1.emergency_stop = true ∧
      (emergency_graviton_shutdown t1 s).1.field_active = false ∧
      (emergency_graviton_shutdown t1 s).1.graviton_field_h = (fun _ _ _ => 0) ∧
      (emergency_graviton_shutdown t1 s).1.stress_energy_tensor = (fun _ _ _ => 0) ∧
      (emergency_graviton_shutdown t1 s).1.riemann_curvature = (fun _ _ _ _ _ => 0) ∧
      (emergency_graviton_shutdown t1 s).1.polymer_holonomy = (fun _ _ _ => 0) ∧
      (emergency_graviton_shutdown t1 s).1.polymer_flux = (fun _ _ => 0) ∧
      (emergency_graviton_shutdown t1 s).1.field_metrics =
        { safe_default_metrics with emergency_response_ready := true } ∧
      (emergency_graviton_shutdown t1 s).1.field_metrics.emergency_response_ready = true) ∧
    ((emergency_graviton_shutdown t2 (emergency_graviton_shutdown t1 s).1).1.emergency_stop = true ∧
      (emergency_graviton_shutdown t2 (emergency_graviton_shutdown t1 s).1).1.field_active = false ∧
      (emergency_graviton_shutdown t2 (emergency_graviton_shutdown t1 s).1).1.graviton_field_h =
        (fun _ _ _ => 0) ∧
      (emergency_graviton_shutdown t2 (emergency_graviton_shutdown t1 s).1).1.stress_energy_tensor =
        (fun _ _ _ => 0) ∧
      (emergency_graviton_shutdown t2 (emergency_graviton_shutdown t1 s).1).1.riemann_curvature =
        (fun _ _ _ _ _ => 0) ∧
      (emergency_graviton_shutdown t2 (emergency_graviton_shutdown t1 s).1).1.polymer_holonomy =
        (fun _ _ _ => 0) ∧
      (emergency_graviton_shutdown t2 (emergency_graviton_shutdown t1 s).1).1.polymer_flux =
        (fun _ _ => 0) ∧
      (emergency_graviton_shutdown t2 (emergency_graviton_shutdown t1 s).1).1.field_metrics =
        { safe_default_metrics with emergency_response_ready := true } ∧
      (emergency_graviton_shutdown t2
        (emergency_graviton_shutdown t1 s).1).1.field_metrics.emergency_response_ready = true) :=
  ⟨⟨rfl, rfl, rfl, rfl, rfl, rfl⟩,
    ⟨rfl, rfl, rfl, rfl, rfl, rfl, rfl, rfl, rfl⟩,
    ⟨rfl, rfl, rfl, rfl, rfl, rfl, rfl, rfl, rfl⟩⟩

/-- C10: `get_safety_status_report` leaves the controller state unchanged,
and its certification block has `positive_energy_guaranteed` exactly when
compliance is at least 0.999, `no_exotic_matter = true`, and
`medical_grade_validated` equal to the validator's safe flag. -/
theorem get_safety_status_report_pure_and_certification (s : ControllerState) :
    (get_safety_status_report s).2 = s ∧
    ((get_safety_status_report s).1.medical_certification.positive_energy_guaranteed = true ↔
      0.999 ≤ s.field_metrics.positive_energy_compliance) ∧
    (get_safety_status_report s).1.medical_certification.no_exotic_matter = true ∧
    (get_safety_status_report s).1.medical_certification.medical_grade_validated =
      (validate_medical_safety s.safety_constraints s.field_metrics).safe_for_medical_use := by
  refine ⟨rfl, ?_, rfl, rfl⟩
  simp [get_safety_status_report]

end GravitonSafety
